import Mathlib

/-!
Verification of the conversation session state machine of `gemini_bot.py`
(a Streamlit chat front-end for the Gemini API).

The script keeps per-session state in `st.session_state`:
`api_configured : bool`, `attempted_initial_config : bool`,
`gemini_model` (present or absent), `chat_session` (present or absent),
and `messages` (list of role/content dicts; a missing key is observably
the same as the empty list, since every read path initialises it to `[]`).

The remote API is an opaque collaborator: a `send_message` call either
returns a response object (with `parts`, `prompt_feedback.block_reason`,
`prompt_feedback.block_reason_message`, `candidates[0].content.parts`)
or raises an exception (`BlockedPromptException`, `StopCandidateException`,
or any other exception carrying an error text `str(e)`).

Everything below is translated from the source script; line numbers in
comments refer to `src/gemini_bot.py`.
-/

set_option maxRecDepth 8192

namespace GeminiBot

/-! ## String helpers modelling Python primitives -/

/-- Python `str.upper()` restricted to the ASCII range, which is all the
code ever matches against (`"API_KEY"`, `"PERMISSION_DENIED"`, ...):
every character is mapped to its upper-case form. -/
def pyUpper (s : String) : String := String.mk (s.data.map Char.toUpper)

/-- Python slice `s[:100]` (line 189/193/195): the first 100 characters. -/
def pySlice100 (s : String) : String := String.mk (s.data.take 100)

/-- Python `pat in s` on character lists: does `pat` occur contiguously? -/
def containsSeq (pat : List Char) : List Char → Bool
  | [] => pat.isEmpty
  | c :: rest => pat.isPrefixOf (c :: rest) || containsSeq pat rest

/-- Python `pat in s` on strings. -/
def strContains (s pat : String) : Bool := containsSeq pat.data s.data

/-! ## Data model -/

/-- Message role: the script only ever uses `"user"` and `"model"`
(lines 143 and 168/198). -/
inductive Role where
  | user
  | model
deriving DecidableEq, Repr

/-- One entry of `st.session_state.messages`:
`{"role": ..., "content": ...}`. -/
structure Message where
  role : Role
  content : String
deriving DecidableEq, Repr

/-- One response fragment: `part.text` (line 156). -/
structure Part where
  text : String
deriving DecidableEq, Repr

/-- The `response.prompt_feedback` object (lines 157-158).
`block_reason` holds the enum name when truthy (`none` = falsy),
`block_reason_message` is a string whose emptiness is Python falsiness. -/
structure PromptFeedback where
  block_reason : Option String
  block_reason_message : String
deriving DecidableEq, Repr

/-- One element of `response.candidates`; only `content.parts` is read
(line 161). -/
structure Candidate where
  content_parts : List Part
deriving DecidableEq, Repr

/-- The object returned by `chat_session.send_message` (lines 153-164). -/
structure GenResponse where
  parts : List Part
  prompt_feedback : Option PromptFeedback
  candidates : List Candidate
deriving DecidableEq, Repr

/-- Exceptions the `except` block distinguishes (lines 176-195):
the two `genai` exception classes matched by `isinstance`, and any other
exception, carrying its `str(e)` text. -/
inductive GeminiException where
  | blockedPrompt (text : String)
  | stopCandidate (text : String)
  | other (text : String)
deriving DecidableEq, Repr

/-- Outcome of one remote `send_message` round-trip. -/
inductive CallResult where
  | ok (r : GenResponse)
  | exn (e : GeminiException)
deriving DecidableEq, Repr

/-- The fixed `generation_config` dict (lines 31-36); the float values are
recorded as rationals since the script never computes with them. -/
structure GenerationConfig where
  temperature : ℚ
  top_p : ℚ
  top_k : ℕ
  max_output_tokens : ℕ
deriving DecidableEq, Repr

/-- One entry of the fixed `safety_settings` list (lines 37-42). -/
structure SafetySetting where
  category : String
  threshold : String
deriving DecidableEq, Repr

/-- The `genai.GenerativeModel` handle built by `initialize_gemini_model`
(lines 27-53). -/
structure ModelHandle where
  model_name : String
  generation_config : GenerationConfig
  safety_settings : List SafetySetting
deriving DecidableEq, Repr

/-- The chat handle returned by `gemini_model.start_chat(history=[])`
(line 130); its only locally observable attribute is the history it was
started with. -/
structure ChatSession where
  history : List Message
deriving DecidableEq, Repr

/-- The per-session state kept in `st.session_state` (lines 56-59,
118-136).  `gemini_model`/`chat_session` absent from the dict is `none`. -/
structure SessionState where
  api_configured : Bool
  attempted_initial_config : Bool
  gemini_model : Option ModelHandle
  chat_session : Option ChatSession
  messages : List Message
deriving DecidableEq, Repr

/-- The process environment: the secret `API_KEY` (line 8), whether
`genai.configure` succeeds (lines 18-25), the result of
`initialize_gemini_model` (lines 27-53, `none` on exception), and whether
`start_chat` succeeds (lines 129-133). -/
structure Env where
  api_key : String
  configure_ok : Bool
  init_model : Option ModelHandle
  start_chat_ok : Bool
deriving DecidableEq, Repr

/-! ## Turn handling (lines 142-203) -/

/-- The model-message content computed in the `try` branch
(lines 155-165). -/
def successContent (r : GenResponse) : String :=
  if r.parts ≠ [] then
    String.join (r.parts.map Part.text)
  else
    match r.prompt_feedback with
    | some pf =>
      match pf.block_reason with
      | some reason_name =>
        "Response blocked due to: "
          ++ (if pf.block_reason_message ≠ "" then pf.block_reason_message
              else reason_name)
          ++ ". Please rephrase your prompt."
      | none => emptyContent r
    | none => emptyContent r
where
  /-- The `else` arm (lines 160-165). -/
  emptyContent (r : GenResponse) : String :=
    if r.candidates.isEmpty || (match r.candidates with
                                | [] => true
                                | c :: _ => c.content_parts.isEmpty) then
      "Sorry, I received an empty response from the model. Please try again or rephrase."
    else
      "Sorry, I didn't get a valid response. Please try again."

/-- Line 181: does `str(e).upper()` contain one of the three credential
patterns? -/
def credPattern (text : String) : Bool :=
  strContains (pyUpper text) "API_KEY"
    || strContains (pyUpper text) "PERMISSION_DENIED"
    || strContains (pyUpper text) "UNAUTHENTICATED"

/-- Line 191: does `str(e).upper()` contain `"RESOURCE_EXHAUSTED"`? -/
def quotaPattern (text : String) : Bool :=
  strContains (pyUpper text) "RESOURCE_EXHAUSTED"

/-- The `except` block's classification (lines 176-195): the
model-message content together with the `api_key_related_error` flag. -/
def errorContent (e : GeminiException) : String × Bool :=
  match e with
  | .blockedPrompt t => ("Response blocked. Reason: " ++ t, false)
  | .stopCandidate t => ("Response generation stopped. Reason: " ++ t, false)
  | .other t =>
    if credPattern t then
      ("Critical API Error. Please check logs and .env file. Error: "
        ++ pySlice100 t ++ "...", true)
    else if quotaPattern t then
      ("Error: Resource exhausted. " ++ pySlice100 t ++ "...", false)
    else
      ("Sorry, an unexpected error occurred: " ++ pySlice100 t ++ "...", false)

/-- The turn handler (lines 142-203): append the user message (line 143);
if the chat session is absent, `st.stop()` (lines 147-149); otherwise the
`send_message` call yields `result`.  On success (or a non-credential
exception) the model message is appended (lines 168 / 197-198); on a
credential-classified exception `api_configured` is cleared and
`gemini_model`/`chat_session` are deleted (lines 186-188) and no model
message is appended. -/
def sendTurn (st : SessionState) (user_prompt : String) (result : CallResult) :
    SessionState :=
  let st1 := { st with messages := st.messages ++ [⟨Role.user, user_prompt⟩] }
  match st.chat_session with
  | none => st1
  | some _ =>
    match result with
    | .ok r =>
      { st1 with messages := st1.messages ++ [⟨Role.model, successContent r⟩] }
    | .exn e =>
      let c := errorContent e
      if c.2 then
        { st1 with
            api_configured := false
            gemini_model := none
            chat_session := none }
      else
        { st1 with messages := st1.messages ++ [⟨Role.model, c.1⟩] }

/-- Spec §4.3 outcome taxonomy, read off the code's branches:
a non-empty `parts` is a `reply` of the joined fragments (lines 155-156);
an empty `parts` with a truthy `block_reason` is `blocked` with the
displayed explanation (lines 157-159); other successful responses are
`empty` (lines 160-165); `BlockedPromptException` and
`StopCandidateException` are the spec's ContentBlocked outcome — policy
outcomes recorded as a normal model message with no state change
(lines 177-180); remaining exceptions matching a credential pattern are
`credentialError` (lines 181-190), then `RESOURCE_EXHAUSTED` gives
`quotaError` (lines 191-193), and the final catch-all branch is
`otherError` (lines 194-195). -/
inductive TurnOutcome where
  | reply (content : String)
  | blocked (reason : String)
  | empty
  | credentialError (detail : String)
  | quotaError (detail : String)
  | otherError (detail : String)
deriving DecidableEq, Repr

/-- Classification of one round-trip into the spec's outcome taxonomy. -/
def classify (result : CallResult) : TurnOutcome :=
  match result with
  | .ok r =>
    if r.parts ≠ [] then
      .reply (String.join (r.parts.map Part.text))
    else
      match r.prompt_feedback with
      | some pf =>
        match pf.block_reason with
        | some reason_name =>
          .blocked (if pf.block_reason_message ≠ "" then pf.block_reason_message
                    else reason_name)
        | none => .empty
      | none => .empty
  | .exn (.blockedPrompt t) => .blocked t
  | .exn (.stopCandidate t) => .blocked t
  | .exn (.other t) =>
    if credPattern t then .credentialError t
    else if quotaPattern t then .quotaError t
    else .otherError t

/-- Does the round-trip end in the credential-error branch
(the `api_key_related_error` flag of lines 176-190)? -/
def isCredentialError (result : CallResult) : Bool :=
  match result with
  | .ok _ => false
  | .exn e => (errorContent e).2

/-- The model-message content a non-credential turn appends. -/
def turnModelContent (result : CallResult) : String :=
  match result with
  | .ok r => successContent r
  | .exn e => (errorContent e).1

/-! ## Render cycle (script top to bottom, lines 56-203) -/

/-- The session state at the start of the very first render: lines 56-59
initialise the two flags to `False`, the handles are absent, and
`messages` (set lazily to `[]` on every read path) is empty. -/
def initialState : SessionState :=
  { api_configured := false
    attempted_initial_config := false
    gemini_model := none
    chat_session := none
    messages := [] }

/-- The one-shot initial configuration block (lines 61-73): runs only
while neither flag is set; a truthy `API_KEY` with a successful
`genai.configure` sets `api_configured`, deletes any model/chat handle,
and clears `messages`; the attempt is recorded either way. -/
def initialConfig (env : Env) (st : SessionState) : SessionState :=
  if !st.api_configured && !st.attempted_initial_config then
    if env.api_key ≠ "" then
      if env.configure_ok then
        { st with
            api_configured := true
            attempted_initial_config := true
            gemini_model := none
            chat_session := none
            messages := [] }
      else
        { st with api_configured := false, attempted_initial_config := true }
    else
      { st with api_configured := false, attempted_initial_config := true }
  else
    st

/-- The "Clear Chat History" button handler (lines 99-103): clear
`messages`, delete `chat_session`, then `st.rerun()` (so the main chat
logic below the sidebar does not run in this pass). -/
def clearChatHistory (st : SessionState) : SessionState :=
  { st with messages := [], chat_session := none }

/-- Lazy handle creation in the main chat logic (lines 118-133): a
missing `gemini_model` is rebuilt from `initialize_gemini_model` (halting
the pass if it fails), then a missing `chat_session` is started fresh
with `history=[]` (halting the pass if `start_chat` raises). -/
def ensureHandles (env : Env) (st : SessionState) : SessionState :=
  let st1 :=
    match st.gemini_model with
    | none => { st with gemini_model := env.init_model }
    | some _ => st
  match st1.gemini_model with
  | none => st1
  | some _ =>
    match st1.chat_session with
    | none =>
      if env.start_chat_ok then { st1 with chat_session := some ⟨[]⟩ } else st1
    | some _ => st1

/-- One user interaction driving one top-to-bottom pass of the script. -/
inductive UiEvent where
  | noInput
  | clearHistory
  | chatInput (prompt : String) (result : CallResult)
deriving DecidableEq, Repr

/-- One full render pass of the script for one user interaction:
the initial configuration block (lines 56-73), then the sidebar (the
clear-history button exists only when `api_configured`, lines 96-103, and
reruns immediately), then the main chat logic (lines 112-203): when not
configured only an info box is shown; otherwise the handles are ensured
(halting the pass when either is unavailable) and a submitted prompt is
handled by `sendTurn`. -/
def renderCycle (env : Env) (ev : UiEvent) (st : SessionState) : SessionState :=
  let st := initialConfig env st
  if st.api_configured then
    if ev = UiEvent.clearHistory then
      clearChatHistory st
    else
      let st := ensureHandles env st
      match st.gemini_model with
      | none => st
      | some _ =>
        match st.chat_session with
        | none => st
        | some _ =>
          match ev with
          | UiEvent.chatInput prompt result => sendTurn st prompt result
          | _ => st
  else
    st

/-- A sequence of consecutive turns submitted through the chat input
(each one a full `sendTurn` on the state left by the previous one). -/
def runTurns (st : SessionState) (turns : List (String × CallResult)) :
    SessionState :=
  turns.foldl (fun s t => sendTurn s t.1 t.2) st

/-- The transcript shape of one non-credential turn: the user message
followed by the model message. -/
def turnPair (t : String × CallResult) : List Message :=
  [⟨Role.user, t.1⟩, ⟨Role.model, turnModelContent t.2⟩]

/-- The transcript alternates user/model in pairs, starting with user. -/
def userModelPairs : List Message → Bool
  | [] => true
  | ⟨Role.user, _⟩ :: ⟨Role.model, _⟩ :: rest => userModelPairs rest
  | _ => false

/-! ## Concrete fixtures -/

/-- The model handle built by `initialize_gemini_model` on success, with
the constants of lines 27-48. -/
def defaultModelHandle : ModelHandle :=
  { model_name := "models/gemini-1.5-flash-latest"
    generation_config :=
      { temperature := 7/10, top_p := 1, top_k := 32, max_output_tokens := 2048 }
    safety_settings :=
      [ ⟨"HARM_CATEGORY_HARASSMENT", "BLOCK_MEDIUM_AND_ABOVE"⟩
      , ⟨"HARM_CATEGORY_HATE_SPEECH", "BLOCK_MEDIUM_AND_ABOVE"⟩
      , ⟨"HARM_CATEGORY_SEXUALLY_EXPLICIT", "BLOCK_MEDIUM_AND_ABOVE"⟩
      , ⟨"HARM_CATEGORY_DANGEROUS_CONTENT", "BLOCK_MEDIUM_AND_ABOVE"⟩ ] }

/-- A ready session: configured, both handles present, empty transcript. -/
def readyState : SessionState :=
  { api_configured := true
    attempted_initial_config := true
    gemini_model := some defaultModelHandle
    chat_session := some ⟨[]⟩
    messages := [] }

/-- A ready session whose transcript already holds one completed turn. -/
def busyState : SessionState :=
  { api_configured := true
    attempted_initial_config := true
    gemini_model := some defaultModelHandle
    chat_session := some ⟨[]⟩
    messages := [⟨Role.user, "hi"⟩, ⟨Role.model, "Hello"⟩] }

/-- An environment in which every external call succeeds. -/
def readyEnv : Env :=
  { api_key := "AIza-test-key"
    configure_ok := true
    init_model := some defaultModelHandle
    start_chat_ok := true }

/-- An error detail of 150 identical characters (no classification
pattern occurs in it, so it lands in the catch-all branch). -/
def longDetail : String := String.mk (List.replicate 150 'a')

/-- A successful response carrying the two fragments of spec §8. -/
def sampleReply : GenResponse := ⟨[⟨"Hel"⟩, ⟨"lo"⟩], none, []⟩

/-- A response with no parts, blocked with reason name `"SAFETY"` and no
block-reason message. -/
def blockedResponse : GenResponse := ⟨[], some ⟨some "SAFETY", ""⟩, []⟩

/-- Two consecutive turns: a successful reply, then a quota failure. -/
def sampleTurns : List (String × CallResult) :=
  [ ("hi", .ok sampleReply)
  , ("again", .exn (.other "429 RESOURCE_EXHAUSTED: quota")) ]

/-! ## Supporting lemmas -/

lemma isPrefixOf_append_right (a b : List Char) : a.isPrefixOf (a ++ b) = true := by
  induction a with
  | nil => simp [List.isPrefixOf]
  | cons c cs ih => simp [List.isPrefixOf, ih]

lemma containsSeq_middle (pat a b : List Char) :
    containsSeq pat (a ++ (pat ++ b)) = true := by
  induction a with
  | nil =>
    cases pat with
    | nil => cases b <;> simp [containsSeq, List.isPrefixOf]
    | cons p ps => simp [containsSeq, isPrefixOf_append_right]
  | cons c cs ih => simp [containsSeq, ih]

lemma strContains_sandwich (a p b : String) : strContains (a ++ p ++ b) p = true := by
  unfold strContains
  rw [String.data_append, String.data_append, List.append_assoc]
  exact containsSeq_middle p.data a.data b.data

lemma pySlice100_length (s : String) : (pySlice100 s).length = min 100 s.length := by
  show (s.data.take 100).length = min 100 s.data.length
  exact List.length_take 100 s.data

/-- A non-credential turn on a live chat session appends exactly the
user/model pair and leaves every other field unchanged. -/
lemma sendTurn_nonCred (st : SessionState) (p : String) (result : CallResult)
    (c : ChatSession) (hsession : st.chat_session = some c)
    (h : isCredentialError result = false) :
    sendTurn st p result = { st with messages := st.messages ++ turnPair (p, result) } := by
  cases result with
  | ok r => simp [sendTurn, hsession, turnPair, turnModelContent]
  | exn e =>
    simp only [isCredentialError] at h
    simp [sendTurn, hsession, turnPair, turnModelContent, h]

/-- Running a sequence of non-credential turns on a live session appends
exactly the user/model pairs and keeps the chat session. -/
lemma runTurns_nonCred (turns : List (String × CallResult)) :
    ∀ (st : SessionState) (c : ChatSession), st.chat_session = some c →
      (∀ t ∈ turns, isCredentialError t.2 = false) →
      (runTurns st turns).messages = st.messages ++ turns.flatMap turnPair ∧
      (runTurns st turns).chat_session = some c := by
  induction turns with
  | nil => intro st c hsession _; simp [runTurns, hsession]
  | cons t ts ih =>
    intro st c hsession hall
    have hhead : isCredentialError t.2 = false := hall t (List.mem_cons_self t ts)
    have hstep := sendTurn_nonCred st t.1 t.2 c hsession hhead
    have hsession2 : (sendTurn st t.1 t.2).chat_session = some c := by
      rw [hstep]; exact hsession
    have hrun : runTurns st (t :: ts) = runTurns (sendTurn st t.1 t.2) ts := rfl
    obtain ⟨hmsg, hchat⟩ :=
      ih (sendTurn st t.1 t.2) c hsession2 (fun x hx => hall x (List.mem_cons_of_mem t hx))
    rw [hrun, hmsg, hchat, hstep]
    simp [List.append_assoc]

lemma userModelPairs_flatMap (turns : List (String × CallResult)) :
    userModelPairs (turns.flatMap turnPair) = true := by
  induction turns with
  | nil => rfl
  | cons t ts ih => simpa [turnPair, userModelPairs] using ih

lemma length_flatMap_turnPair (turns : List (String × CallResult)) :
    (turns.flatMap turnPair).length = 2 * turns.length := by
  induction turns with
  | nil => rfl
  | cons t ts ih =>
    simp only [List.flatMap_cons, List.length_append, ih, turnPair,
      List.length_cons, List.length_nil]
    omega

/-- Once the one-shot configuration attempt is behind us, an
unconfigured session is inert: a render pass changes nothing. -/
lemma renderCycle_unconfigured (env : Env) (ev : UiEvent) (st : SessionState)
    (h1 : st.api_configured = false) (h2 : st.attempted_initial_config = true) :
    renderCycle env ev st = st := by
  simp [renderCycle, initialConfig, h1, h2]

/-- In a ready state (configured, both handles present) a render pass is
exactly: clear on the clear button, `sendTurn` on a prompt, identity
otherwise — independent of the environment. -/
lemma renderCycle_ready (env : Env) (ev : UiEvent) (st : SessionState)
    (h : ModelHandle) (c : ChatSession)
    (hconf : st.api_configured = true) (hmodel : st.gemini_model = some h)
    (hchat : st.chat_session = some c) :
    renderCycle env ev st =
      match ev with
      | .clearHistory => clearChatHistory st
      | .chatInput p result => sendTurn st p result
      | .noInput => st := by
  have hinit : initialConfig env st = st := by
    simp [initialConfig, hconf]
  have hensure : ensureHandles env st = st := by
    simp [ensureHandles, hmodel, hchat]
  cases ev <;> simp [renderCycle, hinit, hconf, hensure, hmodel, hchat]

/-! ## Claim theorems -/

/-- Claim C1: for every sequence of N turns on a live chat session in
which every turn's outcome is non-CredentialError, the transcript after
the N turns is exactly the user/model pair of each turn in submission
order — hence it has exactly 2N messages, alternating role user then
model. -/
theorem transcript_2N_alternating (st : SessionState) (c : ChatSession)
    (turns : List (String × CallResult))
    (hsession : st.chat_session = some c)
    (hempty : st.messages = [])
    (hnoncred : ∀ t ∈ turns, isCredentialError t.2 = false) :
    (runTurns st turns).messages = turns.flatMap turnPair ∧
    (runTurns st turns).messages.length = 2 * turns.length ∧
    userModelPairs (runTurns st turns).messages = true := by
  obtain ⟨hmsg, -⟩ := runTurns_nonCred turns st c hsession hnoncred
  rw [hmsg, hempty, List.nil_append]
  exact ⟨rfl, length_flatMap_turnPair turns, userModelPairs_flatMap turns⟩

/-- Witness for C1: two concrete turns (a reply, then a quota error). -/
theorem transcript_2N_alternating_witness :
    (runTurns readyState sampleTurns).messages = sampleTurns.flatMap turnPair ∧
    (runTurns readyState sampleTurns).messages.length = 2 * sampleTurns.length ∧
    userModelPairs (runTurns readyState sampleTurns).messages = true :=
  transcript_2N_alternating readyState ⟨[]⟩ sampleTurns rfl rfl (by decide)

/-- Claim C2: a remote error whose text matches a credential pattern
(such as `"PERMISSION_DENIED"`) classifies as CredentialError; the user
message is appended but no model message, `gemini_model` and
`chat_session` become absent, `api_configured` is cleared, and every
subsequent render pass leaves the session inert until reconfiguration
(which the one-shot configuration block never re-attempts). -/
theorem credential_error_invalidates (st : SessionState) (p detail : String)
    (c : ChatSession) (hsession : st.chat_session = some c)
    (hcred : credPattern detail = true) :
    classify (.exn (.other detail)) = .credentialError detail ∧
    (sendTurn st p (.exn (.other detail))).messages = st.messages ++ [⟨Role.user, p⟩] ∧
    (sendTurn st p (.exn (.other detail))).gemini_model = none ∧
    (sendTurn st p (.exn (.other detail))).chat_session = none ∧
    (sendTurn st p (.exn (.other detail))).api_configured = false ∧
    (st.attempted_initial_config = true →
      ∀ (env : Env) (ev : UiEvent),
        renderCycle env ev (sendTurn st p (.exn (.other detail))) =
          sendTurn st p (.exn (.other detail))) := by
  refine ⟨by simp [classify, hcred], ?_, ?_, ?_, ?_, ?_⟩ <;>
    simp [sendTurn, hsession, errorContent, hcred]
  intro hatt env ev
  refine renderCycle_unconfigured env ev _ ?_ ?_ <;>
    simp [sendTurn, hsession, errorContent, hcred, hatt]

/-- Witness for C2: a concrete `PERMISSION_DENIED` failure on the ready
state. -/
theorem credential_error_invalidates_witness :
    classify (.exn (.other "403 PERMISSION_DENIED")) =
      .credentialError "403 PERMISSION_DENIED" ∧
    (sendTurn readyState "hi" (.exn (.other "403 PERMISSION_DENIED"))).messages =
      readyState.messages ++ [⟨Role.user, "hi"⟩] ∧
    (sendTurn readyState "hi" (.exn (.other "403 PERMISSION_DENIED"))).gemini_model = none ∧
    (sendTurn readyState "hi" (.exn (.other "403 PERMISSION_DENIED"))).chat_session = none ∧
    (sendTurn readyState "hi" (.exn (.other "403 PERMISSION_DENIED"))).api_configured = false ∧
    (readyState.attempted_initial_config = true →
      ∀ (env : Env) (ev : UiEvent),
        renderCycle env ev (sendTurn readyState "hi" (.exn (.other "403 PERMISSION_DENIED"))) =
          sendTurn readyState "hi" (.exn (.other "403 PERMISSION_DENIED"))) :=
  credential_error_invalidates readyState "hi" "403 PERMISSION_DENIED" ⟨[]⟩ rfl (by decide)

/-- Claim C4: when the response's parts sequence is non-empty, the
outcome is a Reply whose content is the concatenation of all part texts
in order with no separator, and that content is appended as the model
message. -/
theorem reply_concatenation (st : SessionState) (p : String) (r : GenResponse)
    (c : ChatSession) (hsession : st.chat_session = some c)
    (hparts : r.parts ≠ []) :
    classify (.ok r) = .reply (String.join (r.parts.map Part.text)) ∧
    (sendTurn st p (.ok r)).messages =
      st.messages ++ [⟨Role.user, p⟩,
        ⟨Role.model, String.join (r.parts.map Part.text)⟩] := by
  constructor
  · simp [classify, hparts]
  · simp [sendTurn, hsession, successContent, hparts]

/-- Witness for C4: `parts = ["Hel", "lo"]` yields content `"Hello"`. -/
theorem reply_concatenation_witness :
    (classify (.ok sampleReply) = .reply (String.join (sampleReply.parts.map Part.text)) ∧
     (sendTurn readyState "hi" (.ok sampleReply)).messages =
       readyState.messages ++ [⟨Role.user, "hi"⟩,
         ⟨Role.model, String.join (sampleReply.parts.map Part.text)⟩]) ∧
    String.join (sampleReply.parts.map Part.text) = "Hello" :=
  ⟨reply_concatenation readyState "hi" sampleReply ⟨[]⟩ rfl (by decide), by decide⟩

/-- Claim C5: a response with no parts and a truthy block reason (and no
block-reason message) classifies as Blocked with that reason; it flows
through the success branch, appending exactly one model message whose
content contains the reason, and no session state is invalidated. -/
theorem blocked_outcome (st : SessionState) (p reason : String) (r : GenResponse)
    (c : ChatSession) (hsession : st.chat_session = some c)
    (hparts : r.parts = [])
    (hfeedback : r.prompt_feedback = some ⟨some reason, ""⟩) :
    classify (.ok r) = .blocked reason ∧
    (sendTurn st p (.ok r)).messages =
      st.messages ++ [⟨Role.user, p⟩,
        ⟨Role.model,
          "Response blocked due to: " ++ reason ++ ". Please rephrase your prompt."⟩] ∧
    strContains
      ("Response blocked due to: " ++ reason ++ ". Please rephrase your prompt.")
      reason = true ∧
    (sendTurn st p (.ok r)).api_configured = st.api_configured ∧
    (sendTurn st p (.ok r)).gemini_model = st.gemini_model ∧
    (sendTurn st p (.ok r)).chat_session = st.chat_session := by
  refine ⟨?_, ?_, strContains_sandwich _ _ _, ?_, ?_, ?_⟩ <;>
    simp [classify, sendTurn, successContent, hsession, hparts, hfeedback]

/-- Witness for C5: `blockReason = "SAFETY"` on the ready state. -/
theorem blocked_outcome_witness :
    classify (.ok blockedResponse) = .blocked "SAFETY" ∧
    (sendTurn readyState "hi" (.ok blockedResponse)).messages =
      readyState.messages ++ [⟨Role.user, "hi"⟩,
        ⟨Role.model,
          "Response blocked due to: " ++ "SAFETY" ++ ". Please rephrase your prompt."⟩] ∧
    strContains
      ("Response blocked due to: " ++ "SAFETY" ++ ". Please rephrase your prompt.")
      "SAFETY" = true ∧
    (sendTurn readyState "hi" (.ok blockedResponse)).api_configured =
      readyState.api_configured ∧
    (sendTurn readyState "hi" (.ok blockedResponse)).gemini_model =
      readyState.gemini_model ∧
    (sendTurn readyState "hi" (.ok blockedResponse)).chat_session =
      readyState.chat_session :=
  blocked_outcome readyState "hi" "SAFETY" blockedResponse ⟨[]⟩ rfl rfl rfl

/-- Claim C6: a turn failing with an error that matches no credential
pattern (the `RESOURCE_EXHAUSTED` quota branch or the catch-all branch)
invalidates nothing — `api_configured`, `gemini_model` and `chat_session`
are unchanged — and the turn is recorded with the truncated error text in
the model message content. -/
theorem noncredential_error_frame (st : SessionState) (p detail : String)
    (c : ChatSession) (hsession : st.chat_session = some c)
    (hnotcred : credPattern detail = false) :
    (sendTurn st p (.exn (.other detail))).api_configured = st.api_configured ∧
    (sendTurn st p (.exn (.other detail))).gemini_model = st.gemini_model ∧
    (sendTurn st p (.exn (.other detail))).chat_session = st.chat_session ∧
    (sendTurn st p (.exn (.other detail))).messages =
      st.messages ++ [⟨Role.user, p⟩,
        ⟨Role.model,
          (if quotaPattern detail then "Error: Resource exhausted. "
           else "Sorry, an unexpected error occurred: ")
            ++ pySlice100 detail ++ "..."⟩] ∧
    (quotaPattern detail = true → classify (.exn (.other detail)) = .quotaError detail) ∧
    (quotaPattern detail = false → classify (.exn (.other detail)) = .otherError detail) := by
  by_cases hq : quotaPattern detail <;>
    simp [sendTurn, hsession, errorContent, classify, hnotcred, hq]

/-- Witness for C6: a concrete quota failure on the ready state. -/
theorem noncredential_error_frame_witness :
    (sendTurn readyState "hi" (.exn (.other "429 RESOURCE_EXHAUSTED: quota"))).api_configured =
      readyState.api_configured ∧
    (sendTurn readyState "hi" (.exn (.other "429 RESOURCE_EXHAUSTED: quota"))).gemini_model =
      readyState.gemini_model ∧
    (sendTurn readyState "hi" (.exn (.other "429 RESOURCE_EXHAUSTED: quota"))).chat_session =
      readyState.chat_session ∧
    (sendTurn readyState "hi" (.exn (.other "429 RESOURCE_EXHAUSTED: quota"))).messages =
      readyState.messages ++ [⟨Role.user, "hi"⟩,
        ⟨Role.model,
          (if quotaPattern "429 RESOURCE_EXHAUSTED: quota" then "Error: Resource exhausted. "
           else "Sorry, an unexpected error occurred: ")
            ++ pySlice100 "429 RESOURCE_EXHAUSTED: quota" ++ "..."⟩] ∧
    (quotaPattern "429 RESOURCE_EXHAUSTED: quota" = true →
      classify (.exn (.other "429 RESOURCE_EXHAUSTED: quota")) =
        .quotaError "429 RESOURCE_EXHAUSTED: quota") ∧
    (quotaPattern "429 RESOURCE_EXHAUSTED: quota" = false →
      classify (.exn (.other "429 RESOURCE_EXHAUSTED: quota")) =
        .otherError "429 RESOURCE_EXHAUSTED: quota") :=
  noncredential_error_frame readyState "hi" "429 RESOURCE_EXHAUSTED: quota" ⟨[]⟩ rfl
    (by decide)

/-- Claim C9: an error whose upper-cased text contains both a credential
pattern and `"RESOURCE_EXHAUSTED"` is classified as CredentialError and
never as QuotaError, because the elif chain tests the credential patterns
first; the match is case-insensitive since the text is upper-cased before
matching (the witness uses an all-lower-case text). -/
theorem credential_precedence (st : SessionState) (p detail : String)
    (c : ChatSession) (hsession : st.chat_session = some c)
    (hcred : credPattern detail = true)
    (hquota : quotaPattern detail = true) :
    quotaPattern detail = true ∧
    classify (.exn (.other detail)) = .credentialError detail ∧
    (∀ d : String, classify (.exn (.other detail)) ≠ .quotaError d) ∧
    isCredentialError (.exn (.other detail)) = true ∧
    (sendTurn st p (.exn (.other detail))).messages = st.messages ++ [⟨Role.user, p⟩] ∧
    (sendTurn st p (.exn (.other detail))).gemini_model = none ∧
    (sendTurn st p (.exn (.other detail))).chat_session = none ∧
    (sendTurn st p (.exn (.other detail))).api_configured = false := by
  refine ⟨hquota, ?_, ?_, ?_, ?_, ?_, ?_, ?_⟩ <;>
    simp [classify, isCredentialError, errorContent, sendTurn, hsession, hcred]

/-- Witness for C9: a lower-case error text matching both patterns. -/
theorem credential_precedence_witness :
    quotaPattern "permission_denied after resource_exhausted" = true ∧
    classify (.exn (.other "permission_denied after resource_exhausted")) =
      .credentialError "permission_denied after resource_exhausted" ∧
    (∀ d : String,
      classify (.exn (.other "permission_denied after resource_exhausted")) ≠
        .quotaError d) ∧
    isCredentialError (.exn (.other "permission_denied after resource_exhausted")) = true ∧
    (sendTurn readyState "hi"
      (.exn (.other "permission_denied after resource_exhausted"))).messages =
      readyState.messages ++ [⟨Role.user, "hi"⟩] ∧
    (sendTurn readyState "hi"
      (.exn (.other "permission_denied after resource_exhausted"))).gemini_model = none ∧
    (sendTurn readyState "hi"
      (.exn (.other "permission_denied after resource_exhausted"))).chat_session = none ∧
    (sendTurn readyState "hi"
      (.exn (.other "permission_denied after resource_exhausted"))).api_configured = false :=
  credential_precedence readyState "hi" "permission_denied after resource_exhausted" ⟨[]⟩
    rfl (by decide) (by decide)

/-- Claim C10: a BlockedPromptException or StopCandidateException appends
exactly one model message holding the full exception text (the content's
length is the fixed prefix plus the whole text, so nothing is truncated
and no ellipsis is added), and no session state is invalidated. -/
theorem blocked_exception_untruncated (st : SessionState) (p t : String)
    (c : ChatSession) (hsession : st.chat_session = some c) :
    (sendTurn st p (.exn (.blockedPrompt t))).messages =
      st.messages ++ [⟨Role.user, p⟩, ⟨Role.model, "Response blocked. Reason: " ++ t⟩] ∧
    ("Response blocked. Reason: " ++ t).length = 26 + t.length ∧
    (sendTurn st p (.exn (.blockedPrompt t))).api_configured = st.api_configured ∧
    (sendTurn st p (.exn (.blockedPrompt t))).gemini_model = st.gemini_model ∧
    (sendTurn st p (.exn (.blockedPrompt t))).chat_session = st.chat_session ∧
    (sendTurn st p (.exn (.stopCandidate t))).messages =
      st.messages ++ [⟨Role.user, p⟩,
        ⟨Role.model, "Response generation stopped. Reason: " ++ t⟩] ∧
    ("Response generation stopped. Reason: " ++ t).length = 37 + t.length ∧
    (sendTurn st p (.exn (.stopCandidate t))).api_configured = st.api_configured ∧
    (sendTurn st p (.exn (.stopCandidate t))).gemini_model = st.gemini_model ∧
    (sendTurn st p (.exn (.stopCandidate t))).chat_session = st.chat_session := by
  have h1 : ("Response blocked. Reason: " : String).length = 26 := rfl
  have h2 : ("Response generation stopped. Reason: " : String).length = 37 := rfl
  refine ⟨?_, ?_, ?_, ?_, ?_, ?_, ?_, ?_, ?_, ?_⟩ <;>
    simp [sendTurn, hsession, errorContent, String.length_append, h1, h2]

/-- Witness for C10: a 150-character exception text is stored whole. -/
theorem blocked_exception_untruncated_witness :
    ((sendTurn readyState "hi" (.exn (.blockedPrompt longDetail))).messages =
      readyState.messages ++ [⟨Role.user, "hi"⟩,
        ⟨Role.model, "Response blocked. Reason: " ++ longDetail⟩] ∧
    ("Response blocked. Reason: " ++ longDetail).length = 26 + longDetail.length ∧
    (sendTurn readyState "hi" (.exn (.blockedPrompt longDetail))).api_configured =
      readyState.api_configured ∧
    (sendTurn readyState "hi" (.exn (.blockedPrompt longDetail))).gemini_model =
      readyState.gemini_model ∧
    (sendTurn readyState "hi" (.exn (.blockedPrompt longDetail))).chat_session =
      readyState.chat_session ∧
    (sendTurn readyState "hi" (.exn (.stopCandidate longDetail))).messages =
      readyState.messages ++ [⟨Role.user, "hi"⟩,
        ⟨Role.model, "Response generation stopped. Reason: " ++ longDetail⟩] ∧
    ("Response generation stopped. Reason: " ++ longDetail).length =
      37 + longDetail.length ∧
    (sendTurn readyState "hi" (.exn (.stopCandidate longDetail))).api_configured =
      readyState.api_configured ∧
    (sendTurn readyState "hi" (.exn (.stopCandidate longDetail))).gemini_model =
      readyState.gemini_model ∧
    (sendTurn readyState "hi" (.exn (.stopCandidate longDetail))).chat_session =
      readyState.chat_session) ∧
    longDetail.length = 150 :=
  ⟨blocked_exception_untruncated readyState "hi" longDetail ⟨[]⟩ rfl, by decide⟩

/-- Counterexample to claim C3 as stated: for a 150-character error
detail, the stored transcript content is NOT exactly 100 characters
followed by the ellipsis marker — the code prepends a fixed diagnostic
prefix, so the stored content has length 140, not 103. -/
theorem truncation_exact_refuted :
    (sendTurn readyState "q" (.exn (.other longDetail))).messages =
      [⟨Role.user, "q"⟩,
       ⟨Role.model,
         "Sorry, an unexpected error occurred: " ++ pySlice100 longDetail ++ "..."⟩] ∧
    ("Sorry, an unexpected error occurred: " ++ pySlice100 longDetail ++ "...") ≠
      pySlice100 longDetail ++ "..." ∧
    ("Sorry, an unexpected error occurred: " ++ pySlice100 longDetail ++ "...").length
      = 140 ∧
    (pySlice100 longDetail ++ "...").length = 103 := by
  refine ⟨by decide, by decide, by decide, by decide⟩

/-- Claim C3 amended: an error detail longer than 100 characters is
truncated to exactly its first 100 characters with a trailing `"..."`
appended, but the stored transcript content is a fixed branch-specific
diagnostic prefix followed by that truncated detail and the marker (it is
not exactly 100 characters plus the marker). -/
theorem truncation_amended (detail : String) (h : 100 < detail.length) :
    (errorContent (.other detail)).1 =
      (if credPattern detail then
        "Critical API Error. Please check logs and .env file. Error: "
       else if quotaPattern detail then "Error: Resource exhausted. "
       else "Sorry, an unexpected error occurred: ")
        ++ pySlice100 detail ++ "..." ∧
    (pySlice100 detail).length = 100 := by
  constructor
  · by_cases hc : credPattern detail <;> by_cases hq : quotaPattern detail <;>
      simp [errorContent, hc, hq]
  · rw [pySlice100_length]
    omega

/-- Witness for the amended C3: the 150-character detail. -/
theorem truncation_amended_witness :
    (100 < longDetail.length) ∧
    ((errorContent (.other longDetail)).1 =
      (if credPattern longDetail then
        "Critical API Error. Please check logs and .env file. Error: "
       else if quotaPattern longDetail then "Error: Resource exhausted. "
       else "Sorry, an unexpected error occurred: ")
        ++ pySlice100 longDetail ++ "..." ∧
    (pySlice100 longDetail).length = 100) :=
  ⟨by decide, truncation_amended longDetail (by decide)⟩

/-- Claim C7: the clear-history action clears the transcript and
discards the chat session while the model handle and the configured flag
are retained; the next render pass lazily recreates a fresh chat session,
and when the transcript was already empty the net effect is exactly a
freshly recreated chat session with everything else unchanged. -/
theorem clear_history_idempotent (env : Env) (st : SessionState) (h : ModelHandle)
    (hconf : st.api_configured = true)
    (hmodel : st.gemini_model = some h)
    (hstart : env.start_chat_ok = true) :
    (renderCycle env .clearHistory st).messages = [] ∧
    (renderCycle env .clearHistory st).chat_session = none ∧
    (renderCycle env .clearHistory st).gemini_model = some h ∧
    (renderCycle env .clearHistory st).api_configured = true ∧
    renderCycle env .noInput (renderCycle env .clearHistory st) =
      { st with messages := [], chat_session := some ⟨[]⟩ } ∧
    (st.messages = [] →
      renderCycle env .noInput (renderCycle env .clearHistory st) =
        { st with chat_session := some ⟨[]⟩ }) := by
  obtain ⟨ac, att, gm, cs, ms⟩ := st
  obtain ⟨key, cok, im, sok⟩ := env
  change ac = true at hconf
  change gm = some h at hmodel
  change sok = true at hstart
  subst hconf hmodel hstart
  refine ⟨?_, ?_, ?_, ?_, ?_, ?_⟩ <;>
    simp [renderCycle, initialConfig, clearChatHistory, ensureHandles]

/-- Witness for C7: the ready state (empty transcript) in the ready
environment. -/
theorem clear_history_idempotent_witness :
    (renderCycle readyEnv .clearHistory readyState).messages = [] ∧
    (renderCycle readyEnv .clearHistory readyState).chat_session = none ∧
    (renderCycle readyEnv .clearHistory readyState).gemini_model =
      some defaultModelHandle ∧
    (renderCycle readyEnv .clearHistory readyState).api_configured = true ∧
    renderCycle readyEnv .noInput (renderCycle readyEnv .clearHistory readyState) =
      { readyState with messages := [], chat_session := some ⟨[]⟩ } ∧
    (readyState.messages = [] →
      renderCycle readyEnv .noInput (renderCycle readyEnv .clearHistory readyState) =
        { readyState with chat_session := some ⟨[]⟩ }) :=
  clear_history_idempotent readyEnv readyState defaultModelHandle rfl rfl rfl

/-- Counterexample to claim C8 as stated: downstream cached state is
invalidated by the clear-history action although the resolved credential
is unchanged (the same environment is used throughout), and conversely a
render pass with a completely different credential invalidates nothing —
so credential difference is neither necessary nor sufficient, and no
credential equality check exists in the render cycle. -/
theorem credential_sole_trigger_refuted :
    busyState.chat_session = some ⟨[]⟩ ∧
    busyState.messages ≠ [] ∧
    (renderCycle readyEnv .clearHistory busyState).chat_session = none ∧
    (renderCycle readyEnv .clearHistory busyState).messages = [] ∧
    renderCycle { readyEnv with api_key := "another-key-entirely" } .noInput busyState =
      busyState :=
  ⟨rfl, by decide, rfl, rfl, rfl⟩

/-- Claim C8 amended: between successive render cycles of a ready
session, downstream cached state (model handle, chat session, transcript)
is invalidated exactly by the clear-history action or by a
credential-classified turn error — never by a credential comparison: the
render cycle's behaviour is entirely independent of the resolved
credential, because the one-shot configuration block never runs again. -/
theorem invalidation_triggers (env : Env) (ev : UiEvent) (st : SessionState)
    (h : ModelHandle) (c : ChatSession)
    (hconf : st.api_configured = true)
    (hmodel : st.gemini_model = some h)
    (hchat : st.chat_session = some c) :
    (((renderCycle env ev st).chat_session = none ∨
      (renderCycle env ev st).gemini_model = none) ↔
      (ev = .clearHistory ∨
        ∃ p detail, ev = .chatInput p (.exn (.other detail)) ∧
          credPattern detail = true)) ∧
    (∀ k : String, renderCycle { env with api_key := k } ev st = renderCycle env ev st) := by
  have hrc := renderCycle_ready env ev st h c hconf hmodel hchat
  constructor
  · rw [hrc]
    cases ev with
    | noInput => simp [hchat, hmodel]
    | clearHistory => simp [clearChatHistory]
    | chatInput p result =>
      cases result with
      | ok r => simp [sendTurn, hchat, hmodel]
      | exn e =>
        cases e with
        | blockedPrompt t => simp [sendTurn, hchat, hmodel, errorContent]
        | stopCandidate t => simp [sendTurn, hchat, hmodel, errorContent]
        | other t =>
          by_cases hc : credPattern t
          · simp only [sendTurn, hchat, errorContent, hc, if_true]
            simp
            exact ⟨p, t, ⟨rfl, rfl⟩, hc⟩
          · by_cases hq : quotaPattern t <;>
              simp [sendTurn, hchat, hmodel, errorContent, hc, hq]
  · intro k
    rw [renderCycle_ready { env with api_key := k } ev st h c hconf hmodel hchat, hrc]

/-- Witness for the amended C8: the clear-history event on a ready
session with a non-empty transcript. -/
theorem invalidation_triggers_witness :
    (((renderCycle readyEnv .clearHistory busyState).chat_session = none ∨
      (renderCycle readyEnv .clearHistory busyState).gemini_model = none) ↔
      (UiEvent.clearHistory = .clearHistory ∨
        ∃ p detail, UiEvent.clearHistory = .chatInput p (.exn (.other detail)) ∧
          credPattern detail = true)) ∧
    (∀ k : String,
      renderCycle { readyEnv with api_key := k } .clearHistory busyState =
        renderCycle readyEnv .clearHistory busyState) :=
  invalidation_triggers readyEnv .clearHistory busyState defaultModelHandle ⟨[]⟩
    rfl rfl rfl

end GeminiBot
